import Mathlib

/-!
Shallow embedding of the MIDI-to-CV converter firmware
(`MIDI-CV-ATtiny85.ino`): the MIDI running-status byte decoder
(`MidiProcess`) and the voice controller (`midiNoteOn`, `midiNoteOff`,
the time-driven part of `loop`).  Compile-time configuration macros
(`MIDI_CHAN`, `AMPLD_CV_MSG`, `MULTI_TRIG`) become a `Config` record;
machine integers become `Nat`/`Int` with explicit reductions modulo
2^32 (timestamps) and 2^8 (PWM compare registers).
-/

/-- Lowest note in 5-octave range (C2): `#define MIDILONOTE 36`. -/
def MIDILONOTE : Nat := 36

/-- Highest note in 5-octave range (C7): `#define MIDIHINOTE 96`. -/
def MIDIHINOTE : Nat := 96

/-- Width of the trigger pulse in microseconds: `#define TRIGPULSE 1000`. -/
def TRIGPULSE : Nat := 1000

/-- The compile-time configuration options of the sketch:
`MIDI_CHAN` (1..16), `AMPLD_CV_MSG` ('V', 'M' or 'B'), `MULTI_TRIG`. -/
structure Config where
  midiChan : Nat
  ampldCvMsg : Char
  multiTrig : Bool
deriving DecidableEq

/-- The configuration as shipped in the source: channel 12, velocity
drives the amplitude CV, multi-trigger mode disabled. -/
def theConfig : Config := { midiChan := 12, ampldCvMsg := 'V', multiTrig := false }

/-- The same configuration with `MULTI_TRIG 1` (multi-trigger enabled). -/
def mtConfig : Config := { midiChan := 12, ampldCvMsg := 'V', multiTrig := true }

/-- Reduction modulo 2^32, the value of a `uint32_t`. -/
def u32 (n : Nat) : Nat := n % 4294967296

/-- Wraparound-safe `uint32_t` subtraction `a - b`, as the C expressions
`micros() - triggerPulseBegin` and `millis() - gateDelayBegin` compute it. -/
def u32sub (a b : Nat) : Nat := (a + 4294967296 - b % 4294967296) % 4294967296

/-- Conversion of a C `int` value to `uint8_t` (reduction modulo 256),
as happens on assignment to the 8-bit compare registers OCR1A/OCR1B. -/
def u8 (i : Int) : Nat := (i % 256).toNat

/-- The sequential clamp in `midiNoteOn`/`midiNoteOff`:
`if (midi_note < MIDILONOTE) midi_note = MIDILONOTE;`
`if (midi_note > MIDIHINOTE) midi_note = MIDIHINOTE;`. -/
def clampNote (note : Nat) : Nat :=
  let n := if note < MIDILONOTE then MIDILONOTE else note
  if n > MIDIHINOTE then MIDIHINOTE else n

/-- The pitch duty computation `(midi_note - MIDILONOTE) * 4` (C `int`
arithmetic, truncated to `uint8_t` on assignment to OCR1A). -/
def pitchLevel (note : Nat) : Nat := u8 (((note : Int) - (MIDILONOTE : Int)) * 4)

/-- The amplitude duty computation `(240 * v) / 128` (C `int` arithmetic,
truncated to `uint8_t` on assignment to OCR1B). -/
def ampldLevel (v : Nat) : Nat := (240 * v / 128) % 256

/-- The mutable state of the voice controller: the globals `notePlaying`,
`notePending`, `triggerPulseBegin`, `gateDelayBegin`, the two PWM compare
registers (OCR1A = pitch CV duty, OCR1B = amplitude CV duty) and the two
digital outputs (GATE, TRIGGER). -/
structure VoiceState where
  notePlaying : Nat
  notePending : Nat
  triggerPulseBegin : Nat
  gateDelayBegin : Nat
  pitchDuty : Nat
  ampldDuty : Nat
  gate : Bool
  trigger : Bool
deriving DecidableEq

/-- State after `setup()`: zero-initialised globals, OCR1A = 96,
OCR1B = 180, gate low, trigger low. -/
def initVoice : VoiceState :=
  { notePlaying := 0, notePending := 0, triggerPulseBegin := 0,
    gateDelayBegin := 0, pitchDuty := 96, ampldDuty := 180,
    gate := false, trigger := false }

/-- The `triggerOn()` macro: drive TRIGGER high and record `micros()`. -/
def triggerOn (nowMicros : Nat) (s : VoiceState) : VoiceState :=
  { s with trigger := true, triggerPulseBegin := u32 nowMicros }

/-- `midiNoteOn(midi_note, velocity)`: clamp the note, then branch on
`MULTI_TRIG` and `notePlaying`; finally, when `AMPLD_CV_MSG == 'V'`,
set the amplitude duty from the velocity. -/
def midiNoteOn (cfg : Config) (nowMicros nowMillis : Nat) (note vel : Nat)
    (s : VoiceState) : VoiceState :=
  let n := clampNote note
  let s1 :=
    if cfg.multiTrig then
      if s.notePlaying ≠ 0 then
        { s with gate := false, notePlaying := 0, notePending := n,
                 gateDelayBegin := u32 nowMillis }
      else
        triggerOn nowMicros
          { s with pitchDuty := pitchLevel n, gate := true, notePlaying := n }
    else
      let s2 := { s with pitchDuty := pitchLevel n }
      let s3 := if s2.notePlaying = 0 then
                  triggerOn nowMicros { s2 with gate := true }
                else s2
      { s3 with notePlaying := n }
  if cfg.ampldCvMsg = 'V' then { s1 with ampldDuty := ampldLevel vel } else s1

/-- `midiNoteOff(midi_note, midi_level)`: clamp the note; turn the gate
off and clear `notePlaying` only when the clamped note equals the note
currently sounding.  The level argument is ignored. -/
def midiNoteOff (note level : Nat) (s : VoiceState) : VoiceState :=
  let n := clampNote note
  if n = s.notePlaying then { s with notePlaying := 0, gate := false } else s

/-- The trigger-expiry step of `loop()`:
`if ((micros() - triggerPulseBegin) >= TRIGPULSE) digitalWrite(TRIGGER, LOW);`. -/
def tickTrigger (nowMicros : Nat) (s : VoiceState) : VoiceState :=
  if u32sub nowMicros s.triggerPulseBegin ≥ TRIGPULSE then
    { s with trigger := false }
  else s

/-- The pending-note step of `loop()` (multi-trigger mode only):
once `notePending` is set and 5 ms have elapsed since `gateDelayBegin`,
set the pitch duty, gate on, start a trigger pulse, promote the note. -/
def tickPending (multiTrig : Bool) (nowMicros nowMillis : Nat)
    (s : VoiceState) : VoiceState :=
  if multiTrig ∧ s.notePending ≠ 0 ∧ u32sub nowMillis s.gateDelayBegin ≥ 5 then
    triggerOn nowMicros
      { s with pitchDuty := pitchLevel s.notePending, gate := true,
               notePlaying := s.notePending, notePending := 0 }
  else s

/-- One pass of the time-driven part of `loop()`: the trigger-expiry
check runs first, then (multi-trigger mode only) the pending-note check. -/
def tick (multiTrig : Bool) (nowMicros nowMillis : Nat)
    (s : VoiceState) : VoiceState :=
  tickPending multiTrig nowMicros nowMillis (tickTrigger nowMicros s)

/-- The decoder's mutable state: the globals `midiStatusByte` (Running
Status, 0 = none), `midiDataByte1` and `midiDataByte2` (0xFF = not yet
received). -/
structure MidiState where
  midiStatusByte : Nat
  midiDataByte1 : Nat
  midiDataByte2 : Nat
deriving DecidableEq

/-- Decoder state after reset: all three globals zero-initialised. -/
def initMidi : MidiState := { midiStatusByte := 0, midiDataByte1 := 0, midiDataByte2 := 0 }

/-- A decoded channel-voice event, i.e. which handler call `MidiProcess`
makes on completion of a message (the Control Change case is the inline
OCR1B update, represented as an event applied by `handleCC`). -/
inductive MidiEvent where
  | noteOn (note vel : Nat)
  | noteOff (note level : Nat)
  | ctrlChange (cc val : Nat)
deriving DecidableEq

/-- `MidiProcess(midibyte)`: classify the byte (status / system common /
system real-time / data), maintain Running Status and the two pending
data bytes, and report the handler call made, if any. -/
def MidiProcess (cfg : Config) (s : MidiState) (b : Nat) :
    MidiState × Option MidiEvent :=
  if 0x80 ≤ b ∧ b ≤ 0xEF then
    ({ midiStatusByte := b, midiDataByte1 := 0xFF, midiDataByte2 := 0xFF }, none)
  else if 0xF0 ≤ b ∧ b ≤ 0xF7 then
    ({ s with midiStatusByte := 0 }, none)
  else if 0xF8 ≤ b ∧ b ≤ 0xFF then
    (s, none)
  else
    if s.midiStatusByte = 0 then (s, none)
    else if s.midiStatusByte = 0x80 ||| (cfg.midiChan - 1) then
      if s.midiDataByte1 = 0xFF then ({ s with midiDataByte1 := b }, none)
      else ({ s with midiDataByte1 := 0xFF, midiDataByte2 := 0xFF },
            some (.noteOff s.midiDataByte1 b))
    else if s.midiStatusByte = 0x90 ||| (cfg.midiChan - 1) then
      if s.midiDataByte1 = 0xFF then ({ s with midiDataByte1 := b }, none)
      else if b = 0 then
        ({ s with midiDataByte1 := 0xFF, midiDataByte2 := 0xFF },
         some (.noteOff s.midiDataByte1 b))
      else
        ({ s with midiDataByte1 := 0xFF, midiDataByte2 := 0xFF },
         some (.noteOn s.midiDataByte1 b))
    else if s.midiStatusByte = 0xB0 ||| (cfg.midiChan - 1) then
      if s.midiDataByte1 = 0xFF then ({ s with midiDataByte1 := b }, none)
      else ({ s with midiDataByte1 := 0xFF, midiDataByte2 := 0xFF },
            some (.ctrlChange s.midiDataByte1 b))
    else (s, none)

/-- The inline Control Change handling in `MidiProcess`: CC 1 with
`AMPLD_CV_MSG == 'M'`, or CC 2 with `AMPLD_CV_MSG == 'B'`, sets the
amplitude duty; any other controller is discarded. -/
def handleCC (cfg : Config) (cc val : Nat) (s : VoiceState) : VoiceState :=
  let s1 := if cc = 1 ∧ cfg.ampldCvMsg = 'M' then
              { s with ampldDuty := ampldLevel val } else s
  if cc = 2 ∧ cfg.ampldCvMsg = 'B' then
    { s1 with ampldDuty := ampldLevel val } else s1

/-- Apply a decoded event to the voice state through the corresponding
handler. -/
def applyEvent (cfg : Config) (nowMicros nowMillis : Nat) (s : VoiceState) :
    Option MidiEvent → VoiceState
  | none => s
  | some (.noteOn n v) => midiNoteOn cfg nowMicros nowMillis n v s
  | some (.noteOff n l) => midiNoteOff n l s
  | some (.ctrlChange c v) => handleCC cfg c v s

/-- Run the decoder over a byte list, collecting the emitted events. -/
def runBytes (cfg : Config) (s : MidiState) : List Nat → MidiState × List MidiEvent
  | [] => (s, [])
  | b :: rest =>
    let r := MidiProcess cfg s b
    let r2 := runBytes cfg r.1 rest
    (r2.1, r.2.toList ++ r2.2)

/-- The combined decoder + voice state. -/
structure FullState where
  midi : MidiState
  voice : VoiceState
deriving DecidableEq

/-- Combined state after reset and `setup()`. -/
def initFull : FullState := { midi := initMidi, voice := initVoice }

/-- `MidiProcess(midiSerial.read())` together with the handler call it
makes: one received byte's effect on the whole program state. -/
def processByte (cfg : Config) (nowMicros nowMillis : Nat) (f : FullState)
    (b : Nat) : FullState :=
  let r := MidiProcess cfg f.midi b
  { midi := r.1, voice := applyEvent cfg nowMicros nowMillis f.voice r.2 }

/-- Feed a byte list one byte at a time through `processByte`. -/
def processBytes (cfg : Config) (nowMicros nowMillis : Nat) :
    FullState → List Nat → FullState
  | f, [] => f
  | f, b :: rest => processBytes cfg nowMicros nowMillis (processByte cfg nowMicros nowMillis f b) rest

/-- A sample voice state with a note sounding (note 60, gate high). -/
def sampleOn : VoiceState :=
  { notePlaying := 60, notePending := 0, triggerPulseBegin := 0,
    gateDelayBegin := 0, pitchDuty := 96, ampldDuty := 180,
    gate := true, trigger := false }

/-- A sample voice state inside the multi-trigger gate-off interval:
note 62 pending, nothing playing, gate low. -/
def samplePending : VoiceState :=
  { notePlaying := 0, notePending := 62, triggerPulseBegin := 0,
    gateDelayBegin := 10, pitchDuty := 96, ampldDuty := 180,
    gate := false, trigger := false }

/-- The clamped note always lands in [36, 96]. -/
theorem clampNote_bounds (n : Nat) : 36 ≤ clampNote n ∧ clampNote n ≤ 96 := by
  simp only [clampNote, MIDILONOTE, MIDIHINOTE]
  split <;> split <;> omega

set_option maxRecDepth 8192 in
/-- C1: the claimed duty bound fails at the top of the note range.  A
Note On for note 96 — or any higher note, which clamps to 96 — writes
pitch duty (96 - 36) * 4 = 240, one step above the accepted maximum
duty 239 (the code's own comments say `d = PWM duty (0..239)` and the
PWM top is OCR1C = 239). -/
theorem C1_top_note_overflow :
    (midiNoteOn theConfig 0 0 96 64 initVoice).pitchDuty = 240 ∧
    (midiNoteOn mtConfig 0 0 100 64 initVoice).pitchDuty = 240 ∧
    ¬ (midiNoteOn theConfig 0 0 96 64 initVoice).pitchDuty ≤ 239 ∧
    (∀ n : Fin 256, (midiNoteOn theConfig 0 0 n.val 64 initVoice).pitchDuty ≤ 239 ↔ n.val < 96) := by
  decide

/-- C6: a System Real-Time byte (0xF8–0xFF) leaves the decoder state
entirely unchanged and emits no event, and inserting 0xF8 mid-message
still yields exactly one Note-On(60,100) from [0x9B, 60, 0xF8, 100]. -/
theorem C6_realtime_transparent (cfg : Config) (s : MidiState) (b : Nat)
    (h1 : 0xF8 ≤ b) (h2 : b ≤ 0xFF) :
    MidiProcess cfg s b = (s, none) ∧
    runBytes theConfig initMidi [0x9B, 60, 0xF8, 100] =
      ({ midiStatusByte := 0x9B, midiDataByte1 := 0xFF, midiDataByte2 := 0xFF },
       [.noteOn 60 100]) := by
  refine ⟨?_, by decide⟩
  have hb : ¬ (0x80 ≤ b ∧ b ≤ 0xEF) := by omega
  have hc : ¬ (0xF0 ≤ b ∧ b ≤ 0xF7) := by omega
  simp [MidiProcess, hb, hc, h1, h2]

/-- C6 witness: concrete instance at byte 0xF8. -/
theorem C6_realtime_transparent_witness :
    MidiProcess theConfig initMidi 0xF8 = (initMidi, none) :=
  (C6_realtime_transparent theConfig initMidi 0xF8 (by decide) (by decide)).1

/-- C7: consuming the second data byte of a two-byte message resets both
pending slots to 0xFF and leaves Running Status unchanged, and
[0x9B, 60, 100, 61, 110] yields the two Note-On events (60,100), (61,110). -/
theorem C7_running_status (s : MidiState) (b : Nat)
    (hb : b ≤ 0x7F) (hd : s.midiDataByte1 ≠ 0xFF)
    (hs : s.midiStatusByte = 0x8B ∨ s.midiStatusByte = 0x9B ∨ s.midiStatusByte = 0xBB) :
    (MidiProcess theConfig s b).1.midiStatusByte = s.midiStatusByte ∧
    (MidiProcess theConfig s b).1.midiDataByte1 = 0xFF ∧
    (MidiProcess theConfig s b).1.midiDataByte2 = 0xFF ∧
    runBytes theConfig initMidi [0x9B, 60, 100, 61, 110] =
      ({ midiStatusByte := 0x9B, midiDataByte1 := 0xFF, midiDataByte2 := 0xFF },
       [.noteOn 60 100, .noteOn 61 110]) := by
  have h1 : ¬ (0x80 ≤ b ∧ b ≤ 0xEF) := by omega
  have h2 : ¬ (0xF0 ≤ b ∧ b ≤ 0xF7) := by omega
  have h3 : ¬ (0xF8 ≤ b ∧ b ≤ 0xFF) := by omega
  have e80 : (0x80 ||| (theConfig.midiChan - 1) : Nat) = 0x8B := by decide
  have e90 : (0x90 ||| (theConfig.midiChan - 1) : Nat) = 0x9B := by decide
  have eB0 : (0xB0 ||| (theConfig.midiChan - 1) : Nat) = 0xBB := by decide
  refine ⟨?_, ?_, ?_, by decide⟩ <;>
  · unfold MidiProcess
    rw [e80, e90, eB0]
    rcases hs with h | h | h <;> simp [h, h1, h2, h3, hd] <;> split <;> simp

/-- A decoder state mid-message: Note On status, note byte 60 received. -/
def sampleMidi : MidiState :=
  { midiStatusByte := 0x9B, midiDataByte1 := 60, midiDataByte2 := 0xFF }

/-- C7 witness: concrete instance completing a Note On message. -/
theorem C7_running_status_witness :
    (MidiProcess theConfig sampleMidi 100).1.midiStatusByte = sampleMidi.midiStatusByte :=
  (C7_running_status sampleMidi 100 (by decide) (by decide) (by decide)).1

/-- C8 counterexample: a velocity-0 Note On and an explicit Note Off for
the same note produce the same voice state but NOT the same decoder
state — Running Status retains 0x9B in one case and 0x8B in the other. -/
theorem C8_decoder_state_cex :
    (processBytes theConfig 0 0 initFull [0x9B, 60, 0]).voice =
      (processBytes theConfig 0 0 initFull [0x8B, 60, 64]).voice ∧
    (processBytes theConfig 0 0 initFull [0x9B, 60, 0]).midi ≠
      (processBytes theConfig 0 0 initFull [0x8B, 60, 64]).midi := by
  decide

/-- C8 amended: a velocity-0 Note On is dispatched to the Note Off
handler and yields the same voice state and the same pending-slot reset
as an explicit Note Off for that note; only the stored Running Status
differs, each message retaining its own status byte. -/
theorem C8_vel0_noteoff (tU tM n v : Nat) (f : FullState)
    (hn : n ≤ 0x7F) (hv : v ≤ 0x7F) :
    (processBytes theConfig tU tM f [0x9B, n, 0]).voice =
      (processBytes theConfig tU tM f [0x8B, n, v]).voice ∧
    (processBytes theConfig tU tM f [0x9B, n, 0]).midi.midiDataByte1 = 0xFF ∧
    (processBytes theConfig tU tM f [0x9B, n, 0]).midi.midiDataByte2 = 0xFF ∧
    (processBytes theConfig tU tM f [0x8B, n, v]).midi.midiDataByte1 = 0xFF ∧
    (processBytes theConfig tU tM f [0x8B, n, v]).midi.midiDataByte2 = 0xFF ∧
    (processBytes theConfig tU tM f [0x9B, n, 0]).midi.midiStatusByte = 0x9B ∧
    (processBytes theConfig tU tM f [0x8B, n, v]).midi.midiStatusByte = 0x8B := by
  have hn1 : ¬ (0x80 ≤ n ∧ n ≤ 0xEF) := by omega
  have hn2 : ¬ (0xF0 ≤ n ∧ n ≤ 0xF7) := by omega
  have hn3 : ¬ (0xF8 ≤ n ∧ n ≤ 0xFF) := by omega
  have hnf : n ≠ 0xFF := by omega
  have hv1 : ¬ (0x80 ≤ v ∧ v ≤ 0xEF) := by omega
  have hv2 : ¬ (0xF0 ≤ v ∧ v ≤ 0xF7) := by omega
  have hv3 : ¬ (0xF8 ≤ v ∧ v ≤ 0xFF) := by omega
  have e80 : (0x80 ||| (theConfig.midiChan - 1) : Nat) = 0x8B := by decide
  have e90 : (0x90 ||| (theConfig.midiChan - 1) : Nat) = 0x9B := by decide
  simp only [processBytes, processByte, MidiProcess, applyEvent]
  rw [e80, e90]
  simp [hn1, hn2, hn3, hnf, hv1, hv2, hv3, midiNoteOff]

/-- C8 witness: concrete instance at note 60, velocity 64. -/
theorem C8_vel0_noteoff_witness :
    (processBytes theConfig 0 0 initFull [0x9B, 60, 0]).voice =
      (processBytes theConfig 0 0 initFull [0x8B, 60, 64]).voice :=
  (C8_vel0_noteoff 0 0 60 64 initFull (by decide) (by decide)).1

/-- C2: in multi-trigger mode, a Note On while a note is playing turns
the gate off, clears `notePlaying`, stores the clamped note as
`notePending` and records the time; once `notePending` is set and at
least 5 ms have elapsed since that time, a tick sets the pitch duty to
the pending note, turns the gate on, starts a trigger pulse, promotes
the pending note to `notePlaying` and clears `notePending`. -/
theorem C2_multi_trigger (cfg : Config) (tU tM tU2 tM2 note vel : Nat)
    (s s2 : VoiceState) (hm : cfg.multiTrig = true)
    (hp : s.notePlaying ≠ 0) (hq : s2.notePending ≠ 0)
    (he : u32sub tM2 s2.gateDelayBegin ≥ 5) :
    (midiNoteOn cfg tU tM note vel s).gate = false ∧
    (midiNoteOn cfg tU tM note vel s).notePlaying = 0 ∧
    (midiNoteOn cfg tU tM note vel s).notePending = clampNote note ∧
    (midiNoteOn cfg tU tM note vel s).gateDelayBegin = u32 tM ∧
    (tick cfg.multiTrig tU2 tM2 s2).pitchDuty = pitchLevel s2.notePending ∧
    (tick cfg.multiTrig tU2 tM2 s2).gate = true ∧
    (tick cfg.multiTrig tU2 tM2 s2).trigger = true ∧
    (tick cfg.multiTrig tU2 tM2 s2).triggerPulseBegin = u32 tU2 ∧
    (tick cfg.multiTrig tU2 tM2 s2).notePlaying = s2.notePending ∧
    (tick cfg.multiTrig tU2 tM2 s2).notePending = 0 := by
  have hOn : (midiNoteOn cfg tU tM note vel s).gate = false ∧
      (midiNoteOn cfg tU tM note vel s).notePlaying = 0 ∧
      (midiNoteOn cfg tU tM note vel s).notePending = clampNote note ∧
      (midiNoteOn cfg tU tM note vel s).gateDelayBegin = u32 tM := by
    unfold midiNoteOn triggerOn
    rw [hm]
    by_cases hV : cfg.ampldCvMsg = 'V' <;> simp [hV, hp]
  have hTick : (tick cfg.multiTrig tU2 tM2 s2).pitchDuty = pitchLevel s2.notePending ∧
      (tick cfg.multiTrig tU2 tM2 s2).gate = true ∧
      (tick cfg.multiTrig tU2 tM2 s2).trigger = true ∧
      (tick cfg.multiTrig tU2 tM2 s2).triggerPulseBegin = u32 tU2 ∧
      (tick cfg.multiTrig tU2 tM2 s2).notePlaying = s2.notePending ∧
      (tick cfg.multiTrig tU2 tM2 s2).notePending = 0 := by
    rw [hm]
    unfold tick tickPending tickTrigger triggerOn
    split_ifs <;> simp_all
  exact ⟨hOn.1, hOn.2.1, hOn.2.2.1, hOn.2.2.2, hTick.1, hTick.2.1,
    hTick.2.2.1, hTick.2.2.2.1, hTick.2.2.2.2.1, hTick.2.2.2.2.2⟩

/-- C2 witness: note 70 arriving over note 60, then a tick 10 ms into
the gate-off interval of pending note 62. -/
theorem C2_multi_trigger_witness :
    (midiNoteOn mtConfig 0 0 70 64 sampleOn).gate = false ∧
    (midiNoteOn mtConfig 0 0 70 64 sampleOn).notePlaying = 0 ∧
    (midiNoteOn mtConfig 0 0 70 64 sampleOn).notePending = clampNote 70 ∧
    (midiNoteOn mtConfig 0 0 70 64 sampleOn).gateDelayBegin = u32 0 ∧
    (tick mtConfig.multiTrig 7 20 samplePending).pitchDuty = pitchLevel samplePending.notePending ∧
    (tick mtConfig.multiTrig 7 20 samplePending).gate = true ∧
    (tick mtConfig.multiTrig 7 20 samplePending).trigger = true ∧
    (tick mtConfig.multiTrig 7 20 samplePending).triggerPulseBegin = u32 7 ∧
    (tick mtConfig.multiTrig 7 20 samplePending).notePlaying = samplePending.notePending ∧
    (tick mtConfig.multiTrig 7 20 samplePending).notePending = 0 :=
  C2_multi_trigger mtConfig 0 0 7 20 70 64 sampleOn samplePending rfl
    (by decide) (by decide) (by decide)

/-- Voice state after Note On 60 from reset (multi-trigger build). -/
def c3s1 : VoiceState := midiNoteOn mtConfig 0 0 60 64 initVoice

/-- Then Note On 62 at 100 us / 1 ms: note 62 goes pending, gate off. -/
def c3s2 : VoiceState := midiNoteOn mtConfig 100 1 62 64 c3s1

/-- Then Note On 64 at 200 us / 2 ms, before the 5 ms delay expires. -/
def c3s3 : VoiceState := midiNoteOn mtConfig 200 2 64 64 c3s2

/-- C3 counterexample: the state reached by Note Ons 60, 62, 64 within
2 ms (ticks in between change nothing, as the third conjunct shows) has
`notePending = 62` and `notePlaying = 64` simultaneously, refuting the
claimed mutual exclusion over reachable multi-trigger states. -/
theorem C3_mutual_exclusion_cex :
    c3s3.notePending = 62 ∧ c3s3.notePlaying = 64 ∧
    tick true 150 1 c3s2 = c3s2 := by decide

/-- C3 amended: at most one note is playing (a single scalar holds it);
no single operation both stores a pending note and sets `notePlaying`;
the exclusion `notePending ≠ 0 → notePlaying = 0` is preserved by Note
Off, by ticks, and by a Note On from a state with nothing pending — but
a Note On arriving while a note is pending (within the 5 ms gate-off
interval) sets `notePlaying` without clearing `notePending`, so the
exclusion can be violated transiently until the next tick promotes the
pending note. -/
theorem C3_exclusion_amended (cfg : Config) (tU tM tU2 tM2 note vel lvl : Nat)
    (s : VoiceState) (hm : cfg.multiTrig = true)
    (hInv : s.notePending ≠ 0 → s.notePlaying = 0) :
    ((midiNoteOff note lvl s).notePending ≠ 0 →
      (midiNoteOff note lvl s).notePlaying = 0) ∧
    ((tick cfg.multiTrig tU2 tM2 s).notePending ≠ 0 →
      (tick cfg.multiTrig tU2 tM2 s).notePlaying = 0) ∧
    (s.notePending = 0 →
      (midiNoteOn cfg tU tM note vel s).notePending ≠ 0 →
      (midiNoteOn cfg tU tM note vel s).notePlaying = 0) ∧
    (((midiNoteOn cfg tU tM note vel s).notePending = s.notePending ∧
      (midiNoteOn cfg tU tM note vel s).notePlaying = clampNote note) ∨
     ((midiNoteOn cfg tU tM note vel s).notePending = clampNote note ∧
      (midiNoteOn cfg tU tM note vel s).notePlaying = 0)) := by
  refine ⟨?_, ?_, ?_, ?_⟩
  · simp only [midiNoteOff]
    split_ifs <;> simp_all
  · unfold tick tickPending tickTrigger triggerOn
    split_ifs <;> simp_all
  · intro h0
    unfold midiNoteOn triggerOn
    rw [hm]
    by_cases hp : s.notePlaying ≠ 0 <;> simp [hp, h0] <;> split <;> simp [h0]
  · unfold midiNoteOn triggerOn
    rw [hm]
    by_cases hp : s.notePlaying ≠ 0
    · right
      simp [hp] <;> split <;> simp
    · left
      simp [hp] <;> split <;> simp

/-- C3 amended witness: Note Off inside the gate-off interval keeps the
exclusion. -/
theorem C3_exclusion_amended_witness :
    (midiNoteOff 70 0 samplePending).notePlaying = 0 :=
  (C3_exclusion_amended mtConfig 0 0 5 20 70 64 0 samplePending rfl
    (by decide)).1 (by decide)

/-- Voice state with note 96 (the top of the range) sounding. -/
def c4s : VoiceState := midiNoteOn theConfig 0 0 96 64 initVoice

/-- C4 counterexample: with note 96 playing, a Note Off for note 100 —
which is NOT the playing note — still turns the gate off and clears
`notePlaying`, because `midiNoteOff` clamps 100 to 96 before comparing. -/
theorem C4_noteoff_clamp_cex :
    c4s.notePlaying = 96 ∧ c4s.gate = true ∧ (100 : Nat) ≠ c4s.notePlaying ∧
    (midiNoteOff 100 0 c4s).gate = false ∧
    (midiNoteOff 100 0 c4s).notePlaying = 0 := by decide

/-- C4 amended: a Note Off whose CLAMPED note number differs from
`notePlaying` is a silent no-op (the state is left exactly unchanged,
with no error path); the gate turns off and `notePlaying` clears
exactly when the clamped released note equals the playing note. -/
theorem C4_noteoff_amended (note level : Nat) (s : VoiceState) :
    (clampNote note ≠ s.notePlaying → midiNoteOff note level s = s) ∧
    (clampNote note = s.notePlaying →
      (midiNoteOff note level s).gate = false ∧
      (midiNoteOff note level s).notePlaying = 0) := by
  unfold midiNoteOff
  constructor
  · intro h
    simp [h]
  · intro h
    simp [h]

/-- C4 amended witness: releasing note 40 while note 96 plays changes
nothing. -/
theorem C4_noteoff_amended_witness :
    midiNoteOff 40 0 c4s = c4s :=
  (C4_noteoff_amended 40 0 c4s).1 (by decide)

/-- C5: `triggerOn` drives the trigger high and records the time; the
tick's trigger-expiry step drives the trigger low once at least 1000 us
have elapsed (wraparound-safe `uint32` subtraction) and otherwise leaves
it alone; it never touches the gate and its decision is independent of
the gate; and the wraparound subtraction recovers the true elapsed time
even when the timestamp counter wraps. -/
theorem C5_trigger_pulse (tU start d : Nat) (g : Bool) (s : VoiceState)
    (hs : start < 4294967296) (hd : d < 4294967296) :
    (triggerOn tU s).trigger = true ∧
    (triggerOn tU s).triggerPulseBegin = u32 tU ∧
    (u32sub tU s.triggerPulseBegin ≥ TRIGPULSE →
      (tickTrigger tU s).trigger = false) ∧
    (u32sub tU s.triggerPulseBegin < TRIGPULSE →
      (tickTrigger tU s).trigger = s.trigger) ∧
    (tickTrigger tU s).gate = s.gate ∧
    (tickTrigger tU { s with gate := g }).trigger = (tickTrigger tU s).trigger ∧
    u32sub (u32 (start + d)) start = d := by
  refine ⟨rfl, rfl, ?_, ?_, ?_, ?_, ?_⟩
  · intro h
    unfold tickTrigger
    simp [h]
  · intro h
    unfold tickTrigger
    simp [Nat.not_le.mpr h]
  · unfold tickTrigger
    split <;> rfl
  · unfold tickTrigger
    split_ifs <;> simp_all
  · unfold u32sub u32
    omega

/-- C5 witness: a pulse started at the top of the `uint32` range, read
1000 us later across the wraparound, has expired; and the expiry drives
the trigger low. -/
theorem C5_trigger_pulse_witness :
    (tickTrigger 2000 sampleOn).trigger = false ∧
    u32sub (u32 (4294967295 + 1000)) 4294967295 = 1000 := by
  have h := C5_trigger_pulse 2000 4294967295 1000 true sampleOn
    (by decide) (by decide)
  exact ⟨h.2.2.1 (by decide), h.2.2.2.2.2.2⟩

/-- C9: with multi-trigger disabled (legato mode), a Note On while a
note is already playing updates the pitch duty and `notePlaying` to the
new clamped note but leaves gate, trigger and the trigger-pulse
timestamp untouched; only from a silent state does it turn the gate on
and start a trigger pulse. -/
theorem C9_legato (cfg : Config) (tU tM note vel : Nat) (s : VoiceState)
    (hm : cfg.multiTrig = false) :
    (s.notePlaying ≠ 0 →
      (midiNoteOn cfg tU tM note vel s).gate = s.gate ∧
      (midiNoteOn cfg tU tM note vel s).trigger = s.trigger ∧
      (midiNoteOn cfg tU tM note vel s).triggerPulseBegin = s.triggerPulseBegin ∧
      (midiNoteOn cfg tU tM note vel s).pitchDuty = pitchLevel (clampNote note) ∧
      (midiNoteOn cfg tU tM note vel s).notePlaying = clampNote note) ∧
    (s.notePlaying = 0 →
      (midiNoteOn cfg tU tM note vel s).gate = true ∧
      (midiNoteOn cfg tU tM note vel s).trigger = true ∧
      (midiNoteOn cfg tU tM note vel s).triggerPulseBegin = u32 tU ∧
      (midiNoteOn cfg tU tM note vel s).pitchDuty = pitchLevel (clampNote note) ∧
      (midiNoteOn cfg tU tM note vel s).notePlaying = clampNote note) := by
  unfold midiNoteOn triggerOn
  rw [hm]
  constructor
  · intro hp
    simp only [hp, if_neg, ite_false]
    split <;> simp [hp]
  · intro hp
    simp only [hp, if_pos, ite_true]
    split <;> simp [hp]

/-- C9 witness: legato slide from note 60 to note 70 leaves gate and
trigger state untouched. -/
theorem C9_legato_witness :
    (midiNoteOn theConfig 0 0 70 64 sampleOn).gate = sampleOn.gate ∧
    (midiNoteOn theConfig 0 0 70 64 sampleOn).trigger = sampleOn.trigger ∧
    (midiNoteOn theConfig 0 0 70 64 sampleOn).triggerPulseBegin = sampleOn.triggerPulseBegin ∧
    (midiNoteOn theConfig 0 0 70 64 sampleOn).pitchDuty = pitchLevel (clampNote 70) ∧
    (midiNoteOn theConfig 0 0 70 64 sampleOn).notePlaying = clampNote 70 :=
  (C9_legato theConfig 0 0 70 64 sampleOn rfl).1 (by decide)

/-- C10: in multi-trigger mode, while a note is pending (so
`notePlaying = 0`), any Note Off — even for the pending note's own
number — leaves the state exactly unchanged, and the pending note is
still promoted (gate on, trigger pulse, pitch set) by the first tick at
least 5 ms after the gate-off interval began. -/
theorem C10_noteoff_during_pending (tU tM note level : Nat) (s : VoiceState)
    (hp : s.notePlaying = 0) (hq : s.notePending ≠ 0)
    (he : u32sub tM s.gateDelayBegin ≥ 5) :
    midiNoteOff note level s = s ∧
    (tick true tU tM (midiNoteOff note level s)).notePlaying = s.notePending ∧
    (tick true tU tM (midiNoteOff note level s)).notePending = 0 ∧
    (tick true tU tM (midiNoteOff note level s)).gate = true ∧
    (tick true tU tM (midiNoteOff note level s)).trigger = true ∧
    (tick true tU tM (midiNoteOff note level s)).pitchDuty = pitchLevel s.notePending := by
  have hno : midiNoteOff note level s = s := by
    unfold midiNoteOff
    have hb := clampNote_bounds note
    rw [if_neg (by omega)]
  rw [hno]
  refine ⟨rfl, ?_, ?_, ?_, ?_, ?_⟩ <;>
    (unfold tick tickPending tickTrigger triggerOn; split <;> simp_all)

/-- C10 witness: Note Off for the pending note 62 during the gate-off
interval changes nothing, and the tick at 20 ms still promotes it. -/
theorem C10_noteoff_during_pending_witness :
    midiNoteOff 62 0 samplePending = samplePending ∧
    (tick true 7 20 (midiNoteOff 62 0 samplePending)).notePlaying = samplePending.notePending ∧
    (tick true 7 20 (midiNoteOff 62 0 samplePending)).notePending = 0 ∧
    (tick true 7 20 (midiNoteOff 62 0 samplePending)).gate = true ∧
    (tick true 7 20 (midiNoteOff 62 0 samplePending)).trigger = true ∧
    (tick true 7 20 (midiNoteOff 62 0 samplePending)).pitchDuty = pitchLevel samplePending.notePending :=
  C10_noteoff_during_pending 7 20 62 0 samplePending (by decide) (by decide) (by decide)
